import Mathlib

/-!
Verification of the ChatMood sticker-composition pipeline
(`ChatMoodApp` in the web-app script: `updatePreview`, `drawStyledText`,
`drawRainbowText`, `adjustBrightness`).

The canvas 2D API is modelled by an explicit context-state record plus a
trace of drawing operations; each emitted operation records the pieces of
context state (fill/stroke style, font, alignment, shadow) that determine
its pixels, so two runs with equal traces paint identical pixels.
Coordinates and widths are rationals: every arithmetic expression the
script evaluates on them is carried over verbatim.

JavaScript's 32-bit coercions (`>>`, `<<`, `&`, `|`) are modelled exactly
via `toUint32`/`toInt32`; `parseInt(s, 16)` is modelled as parsing the
longest hexadecimal-digit prefix (returning `none` for JavaScript's `NaN`
when no digit is present - sign/whitespace/`0x` handling is irrelevant to
the `'#'`-stripped color bodies the script passes).
-/

/-- JavaScript ToUint32: the operand reduced modulo 2^32. -/
def toUint32 (x : Int) : Nat := (x % (2 ^ 32 : Int)).toNat

/-- JavaScript ToInt32: the operand reduced modulo 2^32, re-read as a signed
32-bit value. -/
def toInt32 (x : Int) : Int :=
  let m := toUint32 x
  if 2 ^ 31 ≤ m then (m : Int) - 2 ^ 32 else (m : Int)

/-- JavaScript `a >> k`: arithmetic right shift of the int32 value of `a`
by `k mod 32` bits (`Int.shiftRight` shifts arithmetically). -/
def jsShr (a : Int) (k : Nat) : Int := (toInt32 a) >>> (k % 32)

/-- JavaScript `a << k`: left shift of the 32-bit value of `a` by `k mod 32`
bits, wrapped to int32 (the inner `toUint32` of `toInt32` performs the
mod-2^32 wrap). -/
def jsShl (a : Int) (k : Nat) : Int := toInt32 (Int.ofNat (toUint32 a <<< (k % 32)))

/-- JavaScript `a & b` on the 32-bit values of the operands. -/
def jsAnd (a b : Int) : Int := toInt32 (Int.ofNat (toUint32 a &&& toUint32 b))

/-- JavaScript `a | b` on the 32-bit values of the operands. -/
def jsOr (a b : Int) : Int := toInt32 (Int.ofNat (toUint32 a ||| toUint32 b))

/-- Value of one hexadecimal digit character (`0`-`9`, `a`-`f`, `A`-`F` by
code point), `none` for a non-digit. -/
def hexDigitVal (c : Char) : Option Nat :=
  if 48 ≤ c.toNat ∧ c.toNat ≤ 57 then some (c.toNat - 48)
  else if 97 ≤ c.toNat ∧ c.toNat ≤ 102 then some (c.toNat - 87)
  else if 65 ≤ c.toNat ∧ c.toNat ≤ 70 then some (c.toNat - 55)
  else none

/-- Accumulating loop of `parseInt(-, 16)`: consume hexadecimal digits until
the first non-digit. -/
def parseHexDigitsAcc : List Char → Nat → Nat
  | [], acc => acc
  | c :: cs, acc =>
    match hexDigitVal c with
    | none => acc
    | some d => parseHexDigitsAcc cs (acc * 16 + d)

/-- JavaScript `parseInt(s, 16)` as the script uses it (on `'#'`-stripped
color bodies): the value of the longest hexadecimal-digit prefix, `none`
(JavaScript `NaN`) when the string starts with a non-digit or is empty. -/
def jsParseIntHex (s : String) : Option Nat :=
  match s.data with
  | [] => none
  | c :: cs =>
    match hexDigitVal c with
    | none => none
    | some d => some (parseHexDigitsAcc cs d)

/-- Remove the first occurrence of a character from a character list. -/
def replaceFirstChar : List Char → Char → List Char
  | [], _ => []
  | c :: cs, t => if c = t then cs else c :: replaceFirstChar cs t

/-- JavaScript `color.replace('#', '')`: a string pattern replaces only its
first occurrence. -/
def jsReplaceHash (s : String) : String := String.mk (replaceFirstChar s.data '#')

/-- JavaScript `n.toString(16)` for a natural number: lowercase hexadecimal
digits (`Nat.toDigits 16` produces exactly those). -/
def natToHexStr (n : Nat) : String := String.mk (Nat.toDigits 16 n)

/-- JavaScript `n.toString(16)` for an integer (the script only reaches this
with a value in `[0, 2^24)`, but negatives are rendered with a sign for
completeness). -/
def intToHexStr (i : Int) : String :=
  if i < 0 then "-" ++ natToHexStr (-i).toNat else natToHexStr i.toNat

/-- JavaScript `s.padStart(len, c)`: prepend copies of `c` until the length
is `len`; a string already at least that long is unchanged. -/
def padStart (s : String) (len : Nat) (c : Char) : String :=
  String.mk (List.replicate (len - s.data.length) c) ++ s

/-- The JavaScript WhiteSpace / LineTerminator code points that `trim`
strips, restricted to the common ones. -/
def isJsWhitespace (c : Char) : Bool :=
  c = ' ' ∨ c = '\t' ∨ c = '\n' ∨ c = '\r' ∨ c.toNat = 11 ∨ c.toNat = 12 ∨
    c.toNat = 160 ∨ c.toNat = 0xFEFF

/-- JavaScript `s.trim()`: strip leading and trailing whitespace. -/
def jsTrim (s : String) : String :=
  String.mk (((s.data.dropWhile isJsWhitespace).reverse.dropWhile isJsWhitespace).reverse)

/-- Channel arithmetic of `adjustBrightness` on the parsed color value
`num`, transcribing
`r = Math.max(0, Math.min(255, (num >> 16) + amount))` (and `g`, `b`
likewise from `num >> 8 & 0x00FF` and `num & 0x0000FF`) followed by the
recomposition `r << 16 | g << 8 | b`.  JavaScript adds `amount` in double
precision; for every integer `amount` the clamped result equals the one
for exact integer addition (a sum that rounds was already far outside
`[0, 255]` on the same side), so exact `Int` addition is faithful. -/
def adjustBrightnessNum (num : Nat) (amount : Int) : Int :=
  let r := max 0 (min 255 (jsShr (Int.ofNat num) 16 + amount))
  let g := max 0 (min 255 (jsAnd (jsShr (Int.ofNat num) 8) 255 + amount))
  let b := max 0 (min 255 (jsAnd (Int.ofNat num) 255 + amount))
  jsOr (jsOr (jsShl r 16) (jsShl g 8)) b

/-- `ChatMoodApp.adjustBrightness(color, amount)`.  When `parseInt` yields
`NaN` (malformed hex body) every channel expression is `NaN` and
`ToInt32(NaN) = 0` collapses the shift/or recomposition to `0`, so the
function returns `"#000000"`; that is the `none` branch below. -/
def adjustBrightness (color : String) (amount : Int) : String :=
  let hex := jsReplaceHash color
  match jsParseIntHex hex with
  | none => "#" ++ padStart (intToHexStr 0) 6 '0'
  | some num => "#" ++ padStart (intToHexStr (adjustBrightnessNum num amount)) 6 '0'

/-- A paint style held by `fillStyle` / `strokeStyle`: a CSS color string,
or a gradient object created by `createRadialGradient` /
`createLinearGradient` with its `addColorStop` stops. -/
inductive Style where
  | color (value : String)
  | radial (x0 y0 r0 x1 y1 r1 : ℚ) (stops : List (ℚ × String))
  | linear (x0 y0 x1 y1 : ℚ) (stops : List (ℚ × String))
deriving DecidableEq

/-- The shadow-related context state (`shadowColor`, `shadowBlur`,
`shadowOffsetX`, `shadowOffsetY`). -/
structure Shadow where
  color : String
  blur : ℚ
  offsetX : ℚ
  offsetY : ℚ
deriving DecidableEq

/-- The canvas 2D context state the script reads or writes. -/
structure Ctx where
  fillStyle : Style
  strokeStyle : Style
  lineWidth : ℚ
  font : String
  textAlign : String
  textBaseline : String
  shadowColor : String
  shadowBlur : ℚ
  shadowOffsetX : ℚ
  shadowOffsetY : ℚ
deriving DecidableEq

/-- Canvas 2D context defaults (fresh `getContext('2d')`). -/
def initialCtx : Ctx :=
  { fillStyle := Style.color "#000000"
    strokeStyle := Style.color "#000000"
    lineWidth := 1
    font := "10px sans-serif"
    textAlign := "start"
    textBaseline := "alphabetic"
    shadowColor := "rgba(0, 0, 0, 0)"
    shadowBlur := 0
    shadowOffsetX := 0
    shadowOffsetY := 0 }

/-- The shadow quadruple of a context. -/
def Ctx.shadow (ctx : Ctx) : Shadow :=
  ⟨ctx.shadowColor, ctx.shadowBlur, ctx.shadowOffsetX, ctx.shadowOffsetY⟩

/-- One drawing operation, recording the context state that determines its
pixels at the moment it is issued.  `fillTextUnit` is `fillText` applied to
a JavaScript string of exactly one UTF-16 code unit, as the rainbow loop
issues via `text[i]`: a unit in the surrogate range is a lone surrogate,
which no Lean `Char`/`String` can hold, so the unit itself is recorded. -/
inductive Op where
  | clearRect (x y w h : ℚ)
  | fillRect (x y w h : ℚ) (style : Style) (shadow : Shadow)
  | fillText (text : String) (x y : ℚ) (style : Style) (font textAlign textBaseline : String)
      (shadow : Shadow)
  | fillTextUnit (unit : Nat) (x y : ℚ) (style : Style) (font textAlign textBaseline : String)
      (shadow : Shadow)
  | strokeRect (x y w h : ℚ) (style : Style) (lineWidth : ℚ) (shadow : Shadow)
  | strokeText (text : String) (x y : ℚ) (style : Style) (lineWidth : ℚ)
      (font textAlign textBaseline : String) (shadow : Shadow)
deriving DecidableEq

/-- `ctx.fillText(text, x, y)` under the current context. -/
def emitFillText (ctx : Ctx) (text : String) (x y : ℚ) : Op :=
  Op.fillText text x y ctx.fillStyle ctx.font ctx.textAlign ctx.textBaseline ctx.shadow

/-- `ctx.strokeText(text, x, y)` under the current context. -/
def emitStrokeText (ctx : Ctx) (text : String) (x y : ℚ) : Op :=
  Op.strokeText text x y ctx.strokeStyle ctx.lineWidth ctx.font ctx.textAlign ctx.textBaseline
    ctx.shadow

/-- Modelled from the spec: the canvas element's fixed 512 by 512 pixel
size (the markup carrying `width`/`height` is not among the sources; the
spec fixes "Canvas: fixed 512×512 pixel surface"). -/
def canvasWidth : ℚ := 512

/-- Modelled from the spec: height of the fixed 512 by 512 canvas. -/
def canvasHeight : ℚ := 512

/-- The per-request fields of `ChatMoodApp` that `updatePreview` reads. -/
structure AppState where
  selectedMood : String
  selectedEmoji : String
  customText : String
  textColor : String
  selectedEffect : String
deriving DecidableEq

/-- The `this.backgroundColors` object literal: mood name to base color. -/
def backgroundColorsTable : List (String × String) :=
  [("happy", "#FFE066"), ("sad", "#87CEEB"), ("angry", "#FF6B6B"), ("excited", "#FF8E53"),
    ("calm", "#9ECAE1"), ("love", "#FFB6C1"), ("cool", "#98FB98"), ("tired", "#DDA0DD")]

/-- Own-property access on an object literal viewed as a key-value list
(no prototype chain; `jsPropAccess` below models the full JavaScript
access semantics). -/
def lookupColor : List (String × String) → String → Option String
  | [], _ => none
  | (k, v) :: rest, mood => if k = mood then some v else lookupColor rest mood

/-- `this.backgroundColors[this.selectedMood] || '#FFE066'` restricted to
own keys: the color the pipeline model paints with.  This is faithful
exactly for moods that do not name an `Object.prototype` member;
`bgColorJs` below models the full property-access semantics, under which
a mood naming an inherited member skips the `||` fallback. -/
def bgBase (mood : String) : String :=
  (lookupColor backgroundColorsTable mood).getD "#FFE066"

/-- The properties every plain object literal inherits from
`Object.prototype` (function-valued except `__proto__`; all truthy). -/
def objectPrototypeProps : List String :=
  ["constructor", "hasOwnProperty", "isPrototypeOf", "propertyIsEnumerable",
    "toLocaleString", "toString", "valueOf", "__proto__", "__defineGetter__",
    "__defineSetter__", "__lookupGetter__", "__lookupSetter__"]

/-- Result of JavaScript property access `obj[key]` on an object literal:
the string value of an own data property, a value inherited from
`Object.prototype`, or `undefined`. -/
inductive JsProp where
  | ownColor (value : String)
  | inherited (name : String)
  | undef
deriving DecidableEq

/-- JavaScript property access `this.backgroundColors[mood]` including the
prototype chain: an own key yields its value; otherwise a key naming an
`Object.prototype` member yields that inherited value; otherwise
`undefined`. -/
def jsPropAccess (table : List (String × String)) (key : String) : JsProp :=
  match lookupColor table key with
  | some v => JsProp.ownColor v
  | none => if key ∈ objectPrototypeProps then JsProp.inherited key else JsProp.undef

/-- JavaScript truthiness of the accessed value: a non-empty string and
every inherited function/object are truthy; `undefined` is falsy. -/
def JsProp.truthy : JsProp → Bool
  | JsProp.ownColor v => v != ""
  | JsProp.inherited _ => true
  | JsProp.undef => false

/-- `const bgColor = this.backgroundColors[this.selectedMood] || '#FFE066'`
with full property-access semantics: the fallback applies only when the
accessed value is falsy. -/
def bgColorJs (mood : String) : JsProp :=
  let v := jsPropAccess backgroundColorsTable mood
  if v.truthy then v else JsProp.ownColor "#FFE066"

/-- A 7-character `#`-plus-6-hex-digit color string. -/
def isHexColorString (s : String) : Bool :=
  match s.data with
  | c :: rest => c = '#' && rest.length = 6 && rest.all (fun d => (hexDigitVal d).isSome)
  | [] => false

/-- Whether `gradient.addColorStop(0, c)` accepts the resolved value: it
throws `SyntaxError` unless the argument parses as a CSS color.  Every
palette and fallback value is a hex color string; an inherited
`Object.prototype` member stringifies to function source text (or, for
`__proto__`, an object), which is not a color; `undefined` is not a color
either. -/
def addColorStopOk : JsProp → Bool
  | JsProp.ownColor v => isHexColorString v
  | JsProp.inherited _ => false
  | JsProp.undef => false

/-- The fixed rainbow cycle of `drawRainbowText`. -/
def rainbowColors : List String :=
  ["#FF0000", "#FF7F00", "#FFFF00", "#00FF00", "#0000FF", "#4B0082", "#9400D3"]

/-- UTF-16 encoding of one Unicode scalar: the scalar itself in the basic
plane, else its two surrogate halves. -/
def charUtf16 (c : Char) : List Nat :=
  if c.toNat < 65536 then [c.toNat]
  else [55296 + (c.toNat - 65536) / 1024, 56320 + (c.toNat - 65536) % 1024]

/-- The UTF-16 code units of a JavaScript string: `text.length` counts
these and `text[i]` is the one-unit string at index `i` (a lone surrogate
for either half of an astral-plane character). -/
def utf16Units (s : String) : List Nat :=
  s.data.foldr (fun c acc => charUtf16 c ++ acc) []

/-- The `for (let i = 0; ...)` loop body of `drawRainbowText` over the
text's UTF-16 code units:
`ctx.fillStyle = colors[i % colors.length]` then
`ctx.fillText(text[i], startX + (i * charWidth) + (charWidth / 2), y)`
(the cycle index is always below the cycle length, so the `getD` default
is never read). -/
def drawRainbowUnits (ctx : Ctx) (units : List Nat) (i : Nat) (startX charWidth y : ℚ) :
    Ctx × List Op :=
  match units with
  | [] => (ctx, [])
  | u :: rest =>
    let ctx2 := { ctx with fillStyle := Style.color (rainbowColors.getD (i % rainbowColors.length) "") }
    let op := Op.fillTextUnit u (startX + (i : ℚ) * charWidth + charWidth / 2) y
      ctx2.fillStyle ctx2.font ctx2.textAlign ctx2.textBaseline ctx2.shadow
    let next := drawRainbowUnits ctx2 rest (i + 1) startX charWidth y
    (next.1, op :: next.2)

/-- `ChatMoodApp.drawRainbowText(ctx, text, x, y)`.  `measure font text` is
the abstract `ctx.measureText(text).width` under the context's current
font; `text.length` and `text[i]` are UTF-16 code units, so the loop runs
over `utf16Units text` and the width divisor is the unit count. -/
def drawRainbowText (measure : String → String → ℚ) (ctx : Ctx) (text : String) (x y : ℚ) :
    Ctx × List Op :=
  let charWidth := measure ctx.font text / ((utf16Units text).length : ℚ)
  let startX := x - measure ctx.font text / 2
  drawRainbowUnits ctx (utf16Units text) 0 startX charWidth y

/-- `ChatMoodApp.drawStyledText(ctx, text, x, y)`.  The `switch` on
`this.selectedEffect` is transcribed branch by branch: `gradient` and
`rainbow` return before the shared tail; `shadow`, `glow`, `outline` and
the no-case default fall through (after `break`) to the main fill
`ctx.fillStyle = this.textColor; ctx.fillText(text, x, y)` and the reset
`ctx.shadowBlur = 0`. -/
def drawStyledText (measure : String → String → ℚ) (textColor effect : String) (ctx : Ctx)
    (text : String) (x y : ℚ) : Ctx × List Op :=
  let ctx0 := { ctx with
    font := "bold 48px Roboto, Arial, sans-serif"
    textAlign := "center"
    textBaseline := "middle" }
  if effect = "gradient" then
    let textGradient := Style.linear 0 (y - 24) 0 (y + 24)
      [(0, textColor), (1, adjustBrightness textColor (-30))]
    let ctx1 := { ctx0 with fillStyle := textGradient }
    (ctx1, [emitFillText ctx1 text x y])
  else if effect = "rainbow" then
    drawRainbowText measure ctx0 text x y
  else
    let pre : Ctx × List Op :=
      if effect = "shadow" then
        let ctx1 := { ctx0 with fillStyle := Style.color "rgba(0, 0, 0, 0.5)" }
        (ctx1, [emitFillText ctx1 text (x + 3) (y + 3)])
      else if effect = "glow" then
        ({ ctx0 with
            shadowColor := textColor
            shadowBlur := 10
            shadowOffsetX := 0
            shadowOffsetY := 0 }, [])
      else if effect = "outline" then
        let ctx1 := { ctx0 with
            strokeStyle := Style.color (adjustBrightness textColor (-40))
            lineWidth := 4 }
        (ctx1, [emitStrokeText ctx1 text x y])
      else (ctx0, [])
    let ctx2 := { pre.1 with fillStyle := Style.color textColor }
    let ctx3 := { ctx2 with shadowBlur := 0 }
    (ctx3, pre.2 ++ [emitFillText ctx2 text x y])

/-- `ChatMoodApp.updatePreview()`: clear, radial-gradient background,
emoji shadow copy and main emoji, optional styled text (skipped when the
trimmed text is empty - JavaScript string truthiness), translucent
border. -/
def updatePreview (measure : String → String → ℚ) (app : AppState) : Ctx × List Op :=
  let bgColor := bgBase app.selectedMood
  let gradient := Style.radial 256 256 0 256 256 300
    [(0, bgColor), (1, adjustBrightness bgColor (-20))]
  let ctx1 := { initialCtx with fillStyle := gradient }
  let ctx2 := { ctx1 with
    font := "200px Arial"
    textAlign := "center"
    textBaseline := "middle"
    fillStyle := Style.color "rgba(0, 0, 0, 0.2)" }
  let ctx3 := { ctx2 with fillStyle := Style.color "#000000" }
  let styled : Ctx × List Op :=
    if jsTrim app.customText = "" then (ctx3, [])
    else drawStyledText measure app.textColor app.selectedEffect ctx3 (jsTrim app.customText) 256 400
  let ctx4 := { styled.1 with
    strokeStyle := Style.color "rgba(255, 255, 255, 0.3)"
    lineWidth := 4 }
  (ctx4,
    Op.clearRect 0 0 canvasWidth canvasHeight ::
    Op.fillRect 0 0 canvasWidth canvasHeight ctx1.fillStyle ctx1.shadow ::
    emitFillText ctx2 app.selectedEmoji 258 258 ::
    emitFillText ctx3 app.selectedEmoji 256 256 ::
    (styled.2 ++
      [Op.strokeRect 2 2 (canvasWidth - 4) (canvasHeight - 4) ctx4.strokeStyle ctx4.lineWidth
        ctx4.shadow]))

/-- The comparator named by the spec's no-op property: the same pipeline
with the text stage omitted (stages 4.1, 4.2 and the frame only). -/
def updatePreviewTextStageOmitted (app : AppState) : Ctx × List Op :=
  let bgColor := bgBase app.selectedMood
  let gradient := Style.radial 256 256 0 256 256 300
    [(0, bgColor), (1, adjustBrightness bgColor (-20))]
  let ctx1 := { initialCtx with fillStyle := gradient }
  let ctx2 := { ctx1 with
    font := "200px Arial"
    textAlign := "center"
    textBaseline := "middle"
    fillStyle := Style.color "rgba(0, 0, 0, 0.2)" }
  let ctx3 := { ctx2 with fillStyle := Style.color "#000000" }
  let ctx4 := { ctx3 with
    strokeStyle := Style.color "rgba(255, 255, 255, 0.3)"
    lineWidth := 4 }
  (ctx4,
    [Op.clearRect 0 0 canvasWidth canvasHeight,
      Op.fillRect 0 0 canvasWidth canvasHeight ctx1.fillStyle ctx1.shadow,
      emitFillText ctx2 app.selectedEmoji 258 258,
      emitFillText ctx3 app.selectedEmoji 256 256,
      Op.strokeRect 2 2 (canvasWidth - 4) (canvasHeight - 4) ctx4.strokeStyle ctx4.lineWidth
        ctx4.shadow])

/-- The ambient browser environment an invocation could observe: a clock
reading and a random stream.  `updatePreview` contains no `Date.now()` or
`Math.random()` call (the only `Date.now()` in the script names the
download file, outside the composition pipeline), so a run is wrapped as a
function that receives the environment and, faithfully to the source,
never reads it. -/
structure World where
  now : Nat
  random : Nat → ℚ

/-- One composition run in a given ambient environment. -/
def composeRun (_w : World) (measure : String → String → ℚ) (app : AppState) : Ctx × List Op :=
  updatePreview measure app

/-- Saturating clamp of an integer to one byte: the specification-side name
for `Math.max(0, Math.min(255, x))` read back as a natural number. -/
def clampByte (x : Int) : Nat := (max 0 (min 255 x)).toNat

/-- The numeric value of a list of hexadecimal digit characters. -/
def hexVal (ds : List Char) : Nat :=
  ds.foldl (fun a c => a * 16 + (hexDigitVal c).getD 0) 0

lemma toUint32_cast {n : Nat} (h : n < 2 ^ 32) : toUint32 (n : Int) = n := by
  unfold toUint32
  rw [Int.emod_eq_of_lt (by positivity) (by exact_mod_cast h)]
  simp

lemma toInt32_cast {n : Nat} (h : n < 2 ^ 31) : toInt32 (n : Int) = (n : Int) := by
  unfold toInt32
  rw [toUint32_cast (lt_trans h (by norm_num))]
  rw [if_neg (by omega)]

lemma jsShr_cast {n : Nat} (k : Nat) (h : n < 2 ^ 31) :
    jsShr (n : Int) k = ((n / 2 ^ (k % 32) : Nat) : Int) := by
  unfold jsShr
  rw [toInt32_cast h]
  show Int.shiftRight (Int.ofNat n) (k % 32) = _
  simp [Int.shiftRight, Nat.shiftRight_eq_div_pow]

lemma jsAnd_cast {n m : Nat} (hn : n < 2 ^ 31) (hm : m < 2 ^ 31) :
    jsAnd (n : Int) (m : Int) = ((n &&& m : Nat) : Int) := by
  unfold jsAnd
  rw [toUint32_cast (lt_trans hn (by norm_num)), toUint32_cast (lt_trans hm (by norm_num))]
  rw [Int.ofNat_eq_natCast]
  exact toInt32_cast (Nat.and_lt_two_pow n hm)

lemma jsOr_cast {n m : Nat} (hn : n < 2 ^ 31) (hm : m < 2 ^ 31) :
    jsOr (n : Int) (m : Int) = ((n ||| m : Nat) : Int) := by
  unfold jsOr
  rw [toUint32_cast (lt_trans hn (by norm_num)), toUint32_cast (lt_trans hm (by norm_num))]
  rw [Int.ofNat_eq_natCast]
  exact toInt32_cast (Nat.or_lt_two_pow hn hm)

lemma jsShl_cast {n : Nat} (k : Nat) (h32 : n < 2 ^ 32) (h : n <<< (k % 32) < 2 ^ 31) :
    jsShl (n : Int) k = ((n <<< (k % 32) : Nat) : Int) := by
  unfold jsShl
  rw [toUint32_cast h32]
  rw [Int.ofNat_eq_natCast]
  exact toInt32_cast h

lemma max_min_eq_clampByte (x : Int) : max 0 (min 255 x) = (clampByte x : Int) := by
  unfold clampByte
  exact (Int.toNat_of_nonneg (le_max_left 0 _)).symm

lemma clampByte_le (x : Int) : clampByte x ≤ 255 := by
  unfold clampByte
  rw [Int.toNat_le]
  exact max_le (by norm_num) (min_le_left _ _)

lemma jsAnd_255 {n : Nat} (hn : n < 2 ^ 31) : jsAnd (n : Int) 255 = ((n % 256 : Nat) : Int) := by
  have h255 : (255 : Int) = ((255 : Nat) : Int) := by norm_num
  rw [h255, jsAnd_cast hn (by norm_num)]
  congr 1
  have h2 := Nat.and_pow_two_sub_one_eq_mod n 8
  norm_num at h2
  exact h2

lemma adjustBrightnessNum_eq (num : Nat) (amount : Int) (h : num < 2 ^ 24) :
    adjustBrightnessNum num amount =
      ((clampByte ((num / 65536 : Nat) + amount) * 65536 +
        clampByte ((num / 256 % 256 : Nat) + amount) * 256 +
        clampByte ((num % 256 : Nat) + amount) : Nat) : Int) := by
  have h31 : num < 2 ^ 31 := lt_trans h (by norm_num)
  have hd : num / 256 < 2 ^ 31 := lt_of_le_of_lt (Nat.div_le_self _ _) h31
  have e1 : (16 : Nat) % 32 = 16 := rfl
  have e2 : (8 : Nat) % 32 = 8 := rfl
  have e3 : (2 : Nat) ^ 16 = 65536 := by norm_num
  have e4 : (2 : Nat) ^ 8 = 256 := by norm_num
  simp only [adjustBrightnessNum, Int.ofNat_eq_natCast]
  rw [jsShr_cast 16 h31, jsShr_cast 8 h31, e1, e2, e3, e4]
  rw [jsAnd_255 hd, jsAnd_255 h31]
  rw [max_min_eq_clampByte ((num / 65536 : Nat) + amount),
    max_min_eq_clampByte ((num / 256 % 256 : Nat) + amount),
    max_min_eq_clampByte ((num % 256 : Nat) + amount)]
  set cr := clampByte ((num / 65536 : Nat) + amount) with hcr
  set cg := clampByte ((num / 256 % 256 : Nat) + amount) with hcg
  set cb := clampByte ((num % 256 : Nat) + amount) with hcb
  have hcrle : cr ≤ 255 := clampByte_le _
  have hcgle : cg ≤ 255 := clampByte_le _
  have hcble : cb ≤ 255 := clampByte_le _
  rw [jsShl_cast 16 (lt_of_le_of_lt hcrle (by norm_num))
      (by rw [e1, Nat.shiftLeft_eq, e3]
          exact lt_of_le_of_lt (Nat.mul_le_mul_right 65536 hcrle) (by norm_num)),
    jsShl_cast 8 (lt_of_le_of_lt hcgle (by norm_num))
      (by rw [e2, Nat.shiftLeft_eq, e4]
          exact lt_of_le_of_lt (Nat.mul_le_mul_right 256 hcgle) (by norm_num))]
  rw [e1, e2, Nat.shiftLeft_eq, Nat.shiftLeft_eq, e3, e4]
  have hb1 : cr * 65536 < 2 ^ 31 := lt_of_le_of_lt (Nat.mul_le_mul_right 65536 hcrle) (by norm_num)
  have hb2 : cg * 256 < 2 ^ 31 := lt_of_le_of_lt (Nat.mul_le_mul_right 256 hcgle) (by norm_num)
  have hb3 : cb < 2 ^ 31 := lt_of_le_of_lt hcble (by norm_num)
  rw [jsOr_cast hb1 hb2, jsOr_cast (Nat.or_lt_two_pow hb1 hb2) hb3]
  congr 1
  have hor1 : cr * 65536 ||| cg * 256 = cr * 65536 + cg * 256 := by
    have hblt : cg * 256 < 2 ^ 16 :=
      lt_of_le_of_lt (Nat.mul_le_mul_right 256 hcgle) (by norm_num)
    have hmix := Nat.mul_add_lt_is_or hblt cr
    rw [show (2 : Nat) ^ 16 * cr = cr * 65536 by ring] at hmix
    exact hmix.symm
  have hor2 : cr * 65536 + cg * 256 ||| cb = cr * 65536 + cg * 256 + cb := by
    have hblt : cb < 2 ^ 8 := lt_of_le_of_lt hcble (by norm_num)
    have hmix := Nat.mul_add_lt_is_or hblt (cr * 256 + cg)
    have heq : cr * 65536 + cg * 256 = 2 ^ 8 * (cr * 256 + cg) := by ring
    rw [heq, ← hmix, ← heq]
  rw [hor1, hor2]

lemma parseHexDigitsAcc_eq_foldl :
    ∀ (ds : List Char) (acc : Nat), (∀ c ∈ ds, (hexDigitVal c).isSome) →
      parseHexDigitsAcc ds acc = ds.foldl (fun a c => a * 16 + (hexDigitVal c).getD 0) acc := by
  intro ds
  induction ds with
  | nil => intro acc _; simp [parseHexDigitsAcc]
  | cons c rest ih =>
    intro acc hall
    obtain ⟨d, hd⟩ := Option.isSome_iff_exists.mp (hall c (by simp))
    simp only [parseHexDigitsAcc, hd, List.foldl_cons, Option.getD_some]
    exact ih (acc * 16 + d) (fun x hx => hall x (by simp [hx]))

lemma jsParseIntHex_mk (ds : List Char) (hne : ds ≠ [])
    (hall : ∀ c ∈ ds, (hexDigitVal c).isSome) :
    jsParseIntHex (String.mk ds) = some (hexVal ds) := by
  cases ds with
  | nil => exact absurd rfl hne
  | cons c rest =>
    obtain ⟨d, hd⟩ := Option.isSome_iff_exists.mp (hall c (by simp))
    simp only [jsParseIntHex, hd, hexVal, List.foldl_cons, Option.getD_some]
    rw [show (0 * 16 + d) = d by omega] at *
    rw [parseHexDigitsAcc_eq_foldl rest d (fun x hx => hall x (by simp [hx]))]

lemma hexDigitVal_getD_lt (c : Char) : (hexDigitVal c).getD 0 < 16 := by
  unfold hexDigitVal
  split_ifs with h1 h2 h3 <;> simp <;> omega

lemma foldl_hex_bound :
    ∀ (ds : List Char) (acc : Nat),
      ds.foldl (fun a c => a * 16 + (hexDigitVal c).getD 0) acc < (acc + 1) * 16 ^ ds.length := by
  intro ds
  induction ds with
  | nil => intro acc; simp
  | cons c rest ih =>
    intro acc
    simp only [List.foldl_cons, List.length_cons]
    calc rest.foldl (fun a c => a * 16 + (hexDigitVal c).getD 0) (acc * 16 + (hexDigitVal c).getD 0)
        < (acc * 16 + (hexDigitVal c).getD 0 + 1) * 16 ^ rest.length := ih _
      _ ≤ (acc + 1) * 16 ^ (rest.length + 1) := by
          have hdlt := hexDigitVal_getD_lt c
          rw [pow_succ]
          have hle : acc * 16 + (hexDigitVal c).getD 0 + 1 ≤ (acc + 1) * 16 := by omega
          calc (acc * 16 + (hexDigitVal c).getD 0 + 1) * 16 ^ rest.length
              ≤ (acc + 1) * 16 * 16 ^ rest.length := Nat.mul_le_mul_right _ hle
            _ = (acc + 1) * (16 ^ rest.length * 16) := by ring

lemma hexVal_lt (ds : List Char) (hlen : ds.length = 6) : hexVal ds < 2 ^ 24 := by
  unfold hexVal
  calc ds.foldl (fun a c => a * 16 + (hexDigitVal c).getD 0) 0 < (0 + 1) * 16 ^ 6 := by
        rw [← hlen]; exact foldl_hex_bound ds 0
    _ = 2 ^ 24 := by norm_num

lemma lookupColor_eq_none :
    ∀ (table : List (String × String)) (mood : String),
      mood ∉ table.map Prod.fst → lookupColor table mood = none := by
  intro table
  induction table with
  | nil => intro mood _; rfl
  | cons p rest ih =>
    intro mood hm
    obtain ⟨k, v⟩ := p
    simp only [List.map_cons, List.mem_cons] at hm
    push_neg at hm
    have hk : ¬ (k = mood) := fun hkm => hm.1 hkm.symm
    simp only [lookupColor, if_neg hk]
    exact ih mood hm.2

lemma drawRainbowUnits_snd (units : List Nat) : ∀ (ctx : Ctx) (i : Nat) (startX charWidth y : ℚ),
    (drawRainbowUnits ctx units i startX charWidth y).2 =
      (List.range units.length).map (fun k =>
        Op.fillTextUnit (units.getD k 0)
          (startX + ((i + k : Nat) : ℚ) * charWidth + charWidth / 2) y
          (Style.color (rainbowColors.getD ((i + k) % rainbowColors.length) ""))
          ctx.font ctx.textAlign ctx.textBaseline ctx.shadow) := by
  induction units with
  | nil => intro ctx i startX charWidth y; simp [drawRainbowUnits]
  | cons u rest ih =>
    intro ctx i startX charWidth y
    simp only [drawRainbowUnits, ih, List.length_cons, List.range_succ_eq_map, List.map_cons,
      List.map_map]
    rw [List.cons_eq_cons]
    refine ⟨by simp [Ctx.shadow], ?_⟩
    apply List.map_congr_left
    intro k _
    have h1 : i + 1 + k = i + (k + 1) := by omega
    simp [Function.comp, Ctx.shadow, h1]

/-- Claim C1: for every 6-digit hex color string and every signed integer
amount, `adjustBrightness` decomposes the color into R, G, B channels (each
0-255: the three bound conjuncts), adds `amount` to each channel
independently, clamps each channel to [0, 255] with saturation
(`clampByte`), and recomposes a hex color; in particular
`adjustBrightness("#FFFFFF", -50)` yields a color whose every channel is
205 (0xCD) and `adjustBrightness("#000000", +300)` clamps every channel to
255. -/
theorem adjustBrightness_clamps_channels (ds : List Char) (amount : Int)
    (hlen : ds.length = 6) (hhex : ∀ c ∈ ds, (hexDigitVal c).isSome) :
    adjustBrightness (String.mk ('#' :: ds)) amount =
      "#" ++ padStart (intToHexStr
        ((clampByte ((hexVal ds / 65536 : Nat) + amount) * 65536 +
          clampByte ((hexVal ds / 256 % 256 : Nat) + amount) * 256 +
          clampByte ((hexVal ds % 256 : Nat) + amount) : Nat) : Int)) 6 '0' ∧
    hexVal ds / 65536 ≤ 255 ∧ hexVal ds / 256 % 256 ≤ 255 ∧ hexVal ds % 256 ≤ 255 ∧
    adjustBrightness "#FFFFFF" (-50) = "#cdcdcd" ∧
    jsParseIntHex "cdcdcd" = some (205 * 65536 + 205 * 256 + 205) ∧
    adjustBrightness "#000000" 300 = "#ffffff" ∧
    jsParseIntHex "ffffff" = some (255 * 65536 + 255 * 256 + 255) := by
  have hne : ds ≠ [] := by intro hc; rw [hc] at hlen; simp at hlen
  have hbound := hexVal_lt ds hlen
  have hbound2 : hexVal ds < 16777216 := by norm_num at hbound; exact hbound
  refine ⟨?_, by omega, by omega, by omega, by decide, by decide, by decide, by decide⟩
  have hrep : jsReplaceHash (String.mk ('#' :: ds)) = String.mk ds := by
    simp [jsReplaceHash, replaceFirstChar]
  simp only [adjustBrightness, hrep, jsParseIntHex_mk ds hne hhex]
  rw [adjustBrightnessNum_eq (hexVal ds) amount hbound]

/-- Witness for C1: `adjustBrightness("#4080C0", 64)` brightens 0x40 to
0x80, 0x80 to 0xC0, and saturates 0xC0 at 0xFF. -/
theorem adjustBrightness_clamps_channels_witness :
    adjustBrightness (String.mk ('#' :: "4080C0".data)) 64 = "#80c0ff" :=
  ((adjustBrightness_clamps_channels "4080C0".data 64 (by decide) (by decide)).1).trans
    (by decide)

/-- Claim C2 counterexample: with effect `outline` the renderer does NOT
stroke only - at mood `happy`, text `"Hi"`, text color `#FF0000`, the trace
contains an interior `fillText` of the glyphs in the text color (the
`switch` case ends in `break`, so control falls through to the shared main
fill), refuting "outline only - no interior fill". -/
theorem outline_no_interior_fill_refuted :
    Op.fillText "Hi" 256 400 (Style.color "#FF0000") "bold 48px Roboto, Arial, sans-serif"
      "center" "middle" ⟨"rgba(0, 0, 0, 0)", 0, 0, 0⟩ ∈
      (updatePreview (fun _ _ => 0) ⟨"happy", "😊", "Hi", "#FF0000", "outline"⟩).2 := by decide

/-- Claim C2 (amended): for every text and text color, effect `outline`
strokes the text outline in the text color darkened by 40 units with
stroke width 4, and then additionally fills the glyph interiors in the
text color (the main fill is not skipped). -/
theorem outline_strokes_then_fills (measure : String → String → ℚ) (textColor : String)
    (ctx : Ctx) (text : String) (x y : ℚ) :
    (drawStyledText measure textColor "outline" ctx text x y).2 =
      [Op.strokeText text x y (Style.color (adjustBrightness textColor (-40))) 4
        "bold 48px Roboto, Arial, sans-serif" "center" "middle" ctx.shadow,
       Op.fillText text x y (Style.color textColor)
        "bold 48px Roboto, Arial, sans-serif" "center" "middle" ctx.shadow] := by
  simp [drawStyledText, emitStrokeText, emitFillText, Ctx.shadow]

/-- Claim C3: on a malformed hex `textColor` the composition performs no
validation and reports nothing - the pipeline renders all 7 operations
anyway, and `adjustBrightness` coerces the failed parse to `"#000000"`, so
the outline stroke is drawn in guessed black. -/
theorem malformed_textColor_renders_with_guessed_black :
    adjustBrightness "#ZZZZZZ" (-40) = "#000000" ∧
    (updatePreview (fun _ _ => 0) ⟨"happy", "😊", "Hi", "#ZZZZZZ", "outline"⟩).2.length = 7 ∧
    Op.strokeText "Hi" 256 400 (Style.color "#000000") 4 "bold 48px Roboto, Arial, sans-serif"
      "center" "middle" ⟨"rgba(0, 0, 0, 0)", 0, 0, 0⟩ ∈
      (updatePreview (fun _ _ => 0) ⟨"happy", "😊", "Hi", "#ZZZZZZ", "outline"⟩).2 := by decide

/-- Claim C4 counterexample: the renderer iterates UTF-16 code units, not
Unicode characters.  The 2-character text `"😀A"` (U+1F600 then A)
produces 3 glyph draws - the two surrogate halves 0xD83D, 0xDE00 of the
emoji and then A - spaced at totalWidth/3, with A taking cycle color
index 2 (yellow `#FFFF00`), where character-wise iteration would draw 2
glyphs at totalWidth/2 spacing with A at index 1 (orange). -/
theorem rainbow_unicode_characters_refuted :
    ("😀A" : String).length = 2 ∧
    utf16Units "😀A" = [55357, 56832, 65] ∧
    (drawStyledText (fun _ _ => 60) "#000000" "rainbow" initialCtx "😀A" 256 400).2 =
      [Op.fillTextUnit 55357 236 400 (Style.color "#FF0000")
        "bold 48px Roboto, Arial, sans-serif" "center" "middle" ⟨"rgba(0, 0, 0, 0)", 0, 0, 0⟩,
       Op.fillTextUnit 56832 256 400 (Style.color "#FF7F00")
        "bold 48px Roboto, Arial, sans-serif" "center" "middle" ⟨"rgba(0, 0, 0, 0)", 0, 0, 0⟩,
       Op.fillTextUnit 65 276 400 (Style.color "#FFFF00")
        "bold 48px Roboto, Arial, sans-serif" "center" "middle" ⟨"rgba(0, 0, 0, 0)", 0, 0, 0⟩] := by
  have hu : utf16Units "😀A" = [55357, 56832, 65] := by decide
  refine ⟨by decide, hu, ?_⟩
  simp only [drawStyledText, drawRainbowText]
  rw [if_neg (show ("rainbow" : String) ≠ "gradient" by decide)]
  simp only [if_true]
  rw [hu, drawRainbowUnits_snd]
  simp only [Nat.zero_add, Ctx.shadow, initialCtx, show rainbowColors.length = 7 from rfl,
    show ([55357, 56832, 65] : List Nat).length = 3 from rfl,
    show List.range 3 = [0, 1, 2] from rfl, List.map_cons, List.map_nil]
  norm_num
  and_intros <;> rfl

/-- Claim C4 (amended): with effect `rainbow` the renderer iterates the
text's UTF-16 code units in order (for basic-plane text these coincide
with its Unicode characters; an astral-plane character is drawn as its two
surrogate halves), assigns unit `i` the color at index `i mod 7` of the
fixed cycle and places it at `startX + i*w + w/2` for
`w = totalWidth / codeUnitCount` and `startX = x - totalWidth/2`; for
`"AB"` exactly 2 glyphs are drawn, colored with the first two cycle
entries, symmetric about x = 256. -/
theorem rainbow_fixed_cycle_over_code_units (measure : String → String → ℚ)
    (textColor : String) (ctx : Ctx) (text : String) (x y : ℚ) (hne : text ≠ "") :
    ((drawStyledText measure textColor "rainbow" ctx text x y).2 =
      (List.range (utf16Units text).length).map (fun i =>
        Op.fillTextUnit ((utf16Units text).getD i 0)
          ((x - measure "bold 48px Roboto, Arial, sans-serif" text / 2) +
            (i : ℚ) * (measure "bold 48px Roboto, Arial, sans-serif" text /
              ((utf16Units text).length : ℚ)) +
            measure "bold 48px Roboto, Arial, sans-serif" text /
              ((utf16Units text).length : ℚ) / 2) y
          (Style.color (rainbowColors.getD (i % 7) ""))
          "bold 48px Roboto, Arial, sans-serif" "center" "middle" ctx.shadow)) ∧
    (∃ p0 p1 : ℚ,
      (drawStyledText measure textColor "rainbow" ctx "AB" 256 y).2 =
        [Op.fillTextUnit 65 p0 y (Style.color "#FF0000") "bold 48px Roboto, Arial, sans-serif"
          "center" "middle" ctx.shadow,
         Op.fillTextUnit 66 p1 y (Style.color "#FF7F00") "bold 48px Roboto, Arial, sans-serif"
          "center" "middle" ctx.shadow] ∧
      p0 + p1 = 2 * 256) := by
  constructor
  · simp only [drawStyledText, drawRainbowText]
    rw [if_neg (show ("rainbow" : String) ≠ "gradient" by decide)]
    simp only [if_true]
    rw [drawRainbowUnits_snd]
    apply List.map_congr_left
    intro k _
    simp only [Nat.zero_add, Ctx.shadow, show rainbowColors.length = 7 from rfl]
  · refine ⟨256 - measure "bold 48px Roboto, Arial, sans-serif" "AB" / 4,
      256 + measure "bold 48px Roboto, Arial, sans-serif" "AB" / 4, ?_, by ring⟩
    have hu : utf16Units "AB" = [65, 66] := by decide
    simp only [drawStyledText, drawRainbowText]
    rw [if_neg (show ("rainbow" : String) ≠ "gradient" by decide)]
    simp only [if_true]
    rw [hu, drawRainbowUnits_snd]
    simp only [Nat.zero_add, Ctx.shadow, show rainbowColors.length = 7 from rfl,
      show ([65, 66] : List Nat).length = 2 from rfl,
      show List.range 2 = [0, 1] from rfl, List.map_cons, List.map_nil]
    norm_num
    and_intros
    · ring
    · rfl
    · ring
    · rfl

/-- Witness for the amended C4: the claim instantiated at the text `"AB"`
with a constant-70 measurement. -/
theorem rainbow_fixed_cycle_over_code_units_witness :
    ("AB" : String) ≠ "" ∧
    (∃ p0 p1 : ℚ,
      (drawStyledText (fun _ _ => 70) "#000000" "rainbow" initialCtx "AB" 256 400).2 =
        [Op.fillTextUnit 65 p0 400 (Style.color "#FF0000") "bold 48px Roboto, Arial, sans-serif"
          "center" "middle" initialCtx.shadow,
         Op.fillTextUnit 66 p1 400 (Style.color "#FF7F00") "bold 48px Roboto, Arial, sans-serif"
          "center" "middle" initialCtx.shadow] ∧
      p0 + p1 = 2 * 256) :=
  ⟨by decide,
    (rainbow_fixed_cycle_over_code_units (fun _ _ => 70) "#000000" initialCtx "AB" 256 400
      (by decide)).2⟩

/-- Claim C5 counterexample: an unknown mood can make the call fail.  The
mood `"constructor"` is outside the 8-entry palette, yet JavaScript
property access finds the `Object.prototype.constructor` member inherited
by the object literal; that value is truthy, so the `|| '#FFE066'`
fallback is skipped, and `addColorStop(0, bgColor)` rejects the non-color
value with a `SyntaxError` - the default base color is not used and an
error surfaces. -/
theorem unknown_mood_prototype_member_fails :
    "constructor" ∉ backgroundColorsTable.map Prod.fst ∧
    bgColorJs "constructor" = JsProp.inherited "constructor" ∧
    bgColorJs "constructor" ≠ JsProp.ownColor "#FFE066" ∧
    addColorStopOk (bgColorJs "constructor") = false := by decide

/-- Claim C5 (amended): for every mood outside the 8-entry palette that
does not name an `Object.prototype` member, the property access yields
`undefined`, the background synthesizer falls back to the default base
color `#FFE066`, `addColorStop` accepts it, and the pipeline renders -
opening with the clear and the full-canvas gradient fill; each of the 8
defined moods resolves to its own palette entry (and that entry is a valid
color stop).  For an unknown mood that does name an inherited
`Object.prototype` member, the truthy inherited value skips the fallback
and `addColorStop` throws. -/
theorem unknown_mood_default_unless_prototype (measure : String → String → ℚ) (app : AppState)
    (h1 : app.selectedMood ∉ backgroundColorsTable.map Prod.fst)
    (h2 : app.selectedMood ∉ objectPrototypeProps) :
    bgColorJs app.selectedMood = JsProp.ownColor "#FFE066" ∧
    addColorStopOk (bgColorJs app.selectedMood) = true ∧
    bgBase app.selectedMood = "#FFE066" ∧
    (updatePreview measure app).2.take 2 =
      [Op.clearRect 0 0 canvasWidth canvasHeight,
        Op.fillRect 0 0 canvasWidth canvasHeight
          (Style.radial 256 256 0 256 256 300
            [(0, "#FFE066"), (1, adjustBrightness "#FFE066" (-20))])
          ⟨"rgba(0, 0, 0, 0)", 0, 0, 0⟩] ∧
    (∀ p ∈ backgroundColorsTable,
      bgColorJs p.1 = JsProp.ownColor p.2 ∧ addColorStopOk (bgColorJs p.1) = true ∧
        bgBase p.1 = p.2) := by
  have hlook : lookupColor backgroundColorsTable app.selectedMood = none :=
    lookupColor_eq_none backgroundColorsTable app.selectedMood h1
  have hacc : jsPropAccess backgroundColorsTable app.selectedMood = JsProp.undef := by
    simp [jsPropAccess, hlook, h2]
  have hjs : bgColorJs app.selectedMood = JsProp.ownColor "#FFE066" := by
    simp [bgColorJs, hacc, JsProp.truthy]
  have hbg : bgBase app.selectedMood = "#FFE066" := by
    unfold bgBase
    rw [hlook]
    rfl
  refine ⟨hjs, by rw [hjs]; decide, hbg, ?_, by decide⟩
  simp [updatePreview, hbg, initialCtx, Ctx.shadow]

/-- Witness for the amended C5: the unknown, non-prototype mood `"bored"`
resolves to the default base color, which is a valid color stop. -/
theorem unknown_mood_default_unless_prototype_witness :
    bgColorJs "bored" = JsProp.ownColor "#FFE066" :=
  (unknown_mood_default_unless_prototype (fun _ _ => 0) ⟨"bored", "😊", "", "#000000", "none"⟩
    (by decide) (by decide)).1

/-- Claim C7: when the text is empty after trimming the text stage is a
no-op for every effect - the run equals the pipeline with the text stage
omitted (background, emoji and border unchanged), which is also the output
of the emoji-compositing stage plus the frame. -/
theorem empty_text_stage_is_noop (measure : String → String → ℚ) (app : AppState)
    (h : jsTrim app.customText = "") :
    updatePreview measure app = updatePreviewTextStageOmitted app := by
  simp [updatePreview, updatePreviewTextStageOmitted, h]

/-- Witness for C7: whitespace-only text with effect `none`. -/
theorem empty_text_stage_is_noop_witness :
    updatePreview (fun _ _ => 0) ⟨"happy", "😊", "   ", "#000000", "none"⟩ =
      updatePreviewTextStageOmitted ⟨"happy", "😊", "   ", "#000000", "none"⟩ :=
  empty_text_stage_is_noop (fun _ _ => 0) ⟨"happy", "😊", "   ", "#000000", "none"⟩ (by decide)

/-- Claim C8: the composition pipeline is deterministic - two runs on the
same request values under any two ambient environments (clock readings,
random streams) produce identical context and identical trace, hence
identical pixel data; no timestamp, randomness or hidden state influences
the output. -/
theorem compose_independent_of_ambient_world (w1 w2 : World)
    (measure : String → String → ℚ) (app : AppState) :
    composeRun w1 measure app = composeRun w2 measure app := rfl

/-- Claim C10: the rainbow effect's output is independent of the text
color - for every two text colors the full pipeline emits the same trace,
since the glyph colors come only from the fixed 7-color cycle. -/
theorem rainbow_canvas_independent_of_textColor (measure : String → String → ℚ)
    (mood emoji text c1 c2 : String) :
    (updatePreview measure ⟨mood, emoji, text, c1, "rainbow"⟩).2 =
    (updatePreview measure ⟨mood, emoji, text, c2, "rainbow"⟩).2 := by
  by_cases h : jsTrim text = "" <;>
    simp [updatePreview, drawStyledText, drawRainbowText, h]
